import Mathlib

/-!
Shallow embedding of the Earthus Studio audio-processing core: the
`useAudioProcessor` hook (realtime graph, parameter mapper, transport,
offline export) and the WAV encoder of the export page.  Numbers are
modelled as exact rationals, Web Audio node state as explicit records,
and `Math.random` as an explicit stream of draws passed to the render.
-/

namespace ES

/-- User-facing control values (`AudioProcessorControls` in the hook).
`eqBands` entries are `Option` so that a band with no entry (an array
shorter than 23 bands, or a hole) is `none`, matching the source's
`controls.eqBands[i] !== undefined` guard. -/
structure AudioProcessorControls where
  pitch : ℚ
  booster : Bool
  roomSize : ℚ
  fullRoom : Bool
  bass : ℚ
  treble : ℚ
  beautify : Bool
  mastered : Bool
  eqBands : List (Option ℚ)
  cutStart : ℚ
  cutEnd : ℚ
deriving DecidableEq

/-- The three `DynamicsCompressorNode` parameters the hook writes. -/
structure CompressorParams where
  threshold : ℚ
  knee : ℚ
  ratio : ℚ
deriving DecidableEq

/-- Web Audio platform defaults of a freshly created compressor node
(threshold -24 dB, knee 30, ratio 12); both the realtime and the offline
context create the node in this state before the hook writes to it. -/
def defaultCompressor : CompressorParams :=
  { threshold := -24, knee := 30, ratio := 12 }

/-- One peaking-filter stage of the 23-band EQ (center frequency, Q, gain). -/
structure EqNode where
  freq : ℚ
  qFactor : ℚ
  gain : ℚ
deriving DecidableEq, Inhabited

/-- The 23 fixed EQ center frequencies (`freqs` in the hook). -/
def FREQS : List ℚ :=
  [20, 25, 31.5, 40, 50, 63, 80, 100, 125, 160, 200, 250,
   315, 400, 500, 630, 800, 1000, 1250, 1600, 2000, 2500, 3150]

/-- The EQ band nodes as created at context init: peaking filter at
`FREQS[i]`, Q = 1.5, gain = 0. -/
def initEqNodes : List EqNode :=
  FREQS.map fun f => { freq := f, qFactor := 1.5, gain := 0 }

/-- The compressor branch of `updateParams` ("Beautify & Mastered"):
with `beautify` or `mastered` set it writes threshold
(`mastered ? -20 : -24`), knee 30 and ratio (`mastered ? 20 : 12`);
otherwise it writes threshold 0 and ratio 1 and leaves knee untouched. -/
def updateCompressor (beautify mastered : Bool) (prev : CompressorParams) :
    CompressorParams :=
  if beautify || mastered then
    { threshold := if mastered then -20 else -24
      knee := 30
      ratio := if mastered then 20 else 12 }
  else
    { prev with threshold := 0, ratio := 1 }

/-- The per-band gain writes of `updateParams`: node `i` is ramped to
`(eqBands[i] - 50) / 2` when entry `i` is defined and left untouched
otherwise (the `controls.eqBands[i] !== undefined` guard); nodes past the
end of `eqBands` are untouched. -/
def updateEqNodes : List (Option ℚ) → List EqNode → List EqNode
  | _, [] => []
  | [], node :: nodes => node :: updateEqNodes [] nodes
  | none :: bands, node :: nodes => node :: updateEqNodes bands nodes
  | some v :: bands, node :: nodes =>
      { node with gain := (v - 50) / 2 } :: updateEqNodes bands nodes

/-- Persistent realtime graph parameter state touched by `updateParams`:
the source's detune (present only while a source node exists), the master
gain node, the bass and treble shelves, the 23 EQ nodes and the
compressor. -/
structure RealtimeParams where
  detune : Option ℚ
  masterGain : ℚ
  bassGain : ℚ
  trebleGain : ℚ
  eqNodes : List EqNode
  compressor : CompressorParams
deriving DecidableEq

/-- Node state right after context init: gain node at 1, shelves at 0 dB,
EQ bands at `initEqNodes`, compressor at platform defaults, no source. -/
def initRealtimeParams : RealtimeParams :=
  { detune := none, masterGain := 1, bassGain := 0, trebleGain := 0,
    eqNodes := initEqNodes, compressor := defaultCompressor }

/-- `updateParams(controls)`: detune `(pitch - 50) * 24` (only while a
source node exists), master gain `1.0 + (booster ? 1.5 : 0)`, shelf gains
`(value - 50) / 2`, per-band EQ gains via `updateEqNodes`, compressor via
`updateCompressor`.  Only the settled ramp targets are modelled, not the
0.1 s linear ramps. -/
def updateParams (c : AudioProcessorControls) (p : RealtimeParams) :
    RealtimeParams :=
  { detune :=
      match p.detune with
      | none => none
      | some _ => some ((c.pitch - 50) * 24)
    masterGain := 1.0 + (if c.booster then 1.5 else 0)
    bassGain := (c.bass - 50) / 2
    trebleGain := (c.treble - 50) / 2
    eqNodes := updateEqNodes c.eqBands p.eqNodes
    compressor := updateCompressor c.beautify c.mastered p.compressor }

/-- Transport state of the hook: whether a source node is attached
(`sourceNodeRef`), the resume position (`pauseTimeRef`), and the published
`isPlaying` / `currentTime`. -/
structure TransportState where
  sourceActive : Bool
  pauseTime : ℚ
  isPlaying : Bool
  currentTime : ℚ
deriving DecidableEq

/-- `stop()`: discard the source node, reset the resume position and
`currentTime` to 0, leave `Playing`.  A second call finds no source node
and performs the same resets; halting is wrapped in `try/catch`, so the
operation is total. -/
def stop (_t : TransportState) : TransportState :=
  { sourceActive := false, pauseTime := 0, isPlaying := false, currentTime := 0 }

/-- `(controls.cutStart / 100) * totalDuration`. -/
def cutStartTimeOf (c : AudioProcessorControls) (totalDuration : ℚ) : ℚ :=
  c.cutStart / 100 * totalDuration

/-- `(controls.cutEnd / 100) * totalDuration`. -/
def cutEndTimeOf (c : AudioProcessorControls) (totalDuration : ℚ) : ℚ :=
  c.cutEnd / 100 * totalDuration

/-- The `startOffset` computation of `play()`: start from the paused
position, raise it to `cutStartTime` if below, then reset it to
`cutStartTime` if it is at or past `cutEndTime`. -/
def computeStartOffset (pauseTime cs ce : ℚ) : ℚ :=
  if ce ≤ (if pauseTime < cs then cs else pauseTime) then cs
  else (if pauseTime < cs then cs else pauseTime)

/-- The third argument of `source.start(0, startOffset, ...)`: playback
length `Math.max(0, cutEndTime - startOffset)`. -/
def playLength (c : AudioProcessorControls) (totalDuration pauseTime : ℚ) : ℚ :=
  max 0 (cutEndTimeOf c totalDuration -
    computeStartOffset pauseTime (cutStartTimeOf c totalDuration)
      (cutEndTimeOf c totalDuration))

/-- One iteration of the `tick` loop of `play()` at elapsed position
`elapsed = now - startTimeRef`: at or past `cutEndTime` it stops and parks
the resume position at `cutStartTime`; otherwise it publishes
`currentTime = elapsed`. -/
def tick (elapsed cs ce : ℚ) (t : TransportState) : TransportState :=
  if ce ≤ elapsed then { stop t with pauseTime := cs }
  else { t with currentTime := elapsed }

/-- A decoded source (`audioBufferRef`): only its duration matters to the
transport and export timing math. -/
structure AudioBuffer where
  duration : ℚ
deriving DecidableEq

/-- The hook's session state: the decoded source, the persistent node
parameters and the transport. -/
structure Session where
  buffer : Option AudioBuffer
  params : RealtimeParams
  transport : TransportState
deriving DecidableEq

/-- `play(controls)`: a no-op without a decoded buffer; otherwise it sets
the source detune, computes the trim window and start offset, applies
`updateParams`, marks the transport playing and runs the first `tick`,
which fires synchronously at elapsed position `startOffset`. -/
def play (s : Session) (c : AudioProcessorControls) : Session :=
  match s.buffer with
  | none => s
  | some buf =>
    let total := buf.duration
    let cs := cutStartTimeOf c total
    let ce := cutEndTimeOf c total
    let so := computeStartOffset s.transport.pauseTime cs ce
    { s with
      params := updateParams c { s.params with detune := some ((c.pitch - 50) * 24) }
      transport := tick so cs ce { s.transport with sourceActive := true, isPlaying := true } }

/-- `createReverbBuffer(ctx, duration)` with `Math.random()` modelled as
the stream `rand` of draws in call order (all of channel 0 first, then
channel 1): sample `i` of a channel is `(draw * 2 - 1) * (1 - i/length)^4`
with `length = sampleRate * duration`.  `durationSec` is in whole seconds
(the hook always passes `2.0`). -/
def createReverbBuffer (sampleRate durationSec : ℕ) (rand : ℕ → ℚ) :
    List (List ℚ) :=
  let length := sampleRate * durationSec
  (List.range 2).map fun channel =>
    (List.range length).map fun i =>
      (rand (channel * length + i) * 2 - 1) * (1 - (i : ℚ) / (length : ℚ)) ^ 4

/-- The offline graph `exportAudio` builds: context shape, node parameter
values and source seeking.  `eqNodes` lists the peaking EQ stages present
in this graph; `exportAudio` creates none, so it is always `[]`. -/
structure OfflineRender where
  channelCount : ℕ
  lengthSamples : ℚ
  sampleRate : ℕ
  detune : ℚ
  eqNodes : List EqNode
  bassFreq : ℚ
  bassGain : ℚ
  trebleFreq : ℚ
  trebleGain : ℚ
  compressor : CompressorParams
  reverbImpulse : List (List ℚ)
  wetGain : ℚ
  masterGain : ℚ
  sourceStart : ℚ
  sourceDuration : ℚ
deriving DecidableEq

/-- `exportAudio(controls)`: `null` without a decoded buffer; otherwise an
offline context of 2 channels at 44100 Hz for `renderDuration` seconds,
with source → bass shelf → treble shelf → compressor → parallel dry path
and wet path (room gain → convolver) → master gain.  The compressor checks
only `controls.beautify`; no EQ band stages are created; the reverb
impulse draws fresh `Math.random` values via `rand`. -/
def exportAudio (s : Session) (c : AudioProcessorControls) (rand : ℕ → ℚ) :
    Option OfflineRender :=
  match s.buffer with
  | none => none
  | some buf =>
    let total := buf.duration
    let cs := cutStartTimeOf c total
    let ce := cutEndTimeOf c total
    let renderDuration := ce - cs
    some
      { channelCount := 2
        lengthSamples := renderDuration * 44100
        sampleRate := 44100
        detune := (c.pitch - 50) * 24
        eqNodes := []
        bassFreq := 200
        bassGain := (c.bass - 50) / 2
        trebleFreq := 3000
        trebleGain := (c.treble - 50) / 2
        compressor :=
          if c.beautify then { threshold := -24, knee := 30, ratio := 12 }
          else { defaultCompressor with threshold := 0, ratio := 1 }
        reverbImpulse := createReverbBuffer 44100 2 rand
        wetGain := c.roomSize / 100 * (if c.fullRoom then 1 else 0.5)
        masterGain := if c.booster then 1.5 else 1.0
        sourceStart := cs
        sourceDuration := renderDuration }

/-- The steady-state spectral/gain characteristics the parity requirement
compares: detune, the peaking EQ stages, shelf gains, compressor settings,
reverb wet level and master gain. -/
structure RenderChars where
  detune : ℚ
  eqNodes : List EqNode
  bassGain : ℚ
  trebleGain : ℚ
  compressor : CompressorParams
  wetGain : ℚ
  masterGain : ℚ
deriving DecidableEq

/-- Steady-state characteristics of the realtime `play` graph: `play` sets
the source detune, creates the wet-path gain (`roomGain`) and calls
`updateParams` on the initialized nodes; the values are the settled ramp
targets. -/
def realtimeChars (c : AudioProcessorControls) : RenderChars :=
  let p := updateParams c { initRealtimeParams with detune := some ((c.pitch - 50) * 24) }
  { detune := p.detune.getD 0
    eqNodes := p.eqNodes
    bassGain := p.bassGain
    trebleGain := p.trebleGain
    compressor := p.compressor
    wetGain := c.roomSize / 100 * (if c.fullRoom then 1 else 0.5)
    masterGain := p.masterGain }

/-- The same characteristics read off an offline render graph. -/
def offlineCharsOf (g : OfflineRender) : RenderChars :=
  { detune := g.detune, eqNodes := g.eqNodes, bassGain := g.bassGain,
    trebleGain := g.trebleGain, compressor := g.compressor,
    wetGain := g.wetGain, masterGain := g.masterGain }

/-- JavaScript `|0` on the in-range values the encoder produces:
truncation toward zero. -/
def jsTrunc (x : ℚ) : ℤ := if x < 0 then ⌈x⌉ else ⌊x⌋

/-- The clamp `Math.max(-1, Math.min(1, sample))`. -/
def clampSample (s : ℚ) : ℚ := max (-1) (min 1 s)

/-- One sample of the encoder loop, exactly as JavaScript parses it:
`(0.5 + sample < 0 ? sample * 32768 : sample * 32767) | 0`, i.e. the
ternary's condition is `(0.5 + sample) < 0`. -/
def encodeSample (s : ℚ) : ℤ :=
  let sample := clampSample s
  jsTrunc (if 0.5 + sample < 0 then sample * 32768 else sample * 32767)

/-- The scaling the spec's words describe, for comparison: "each float
sample clamped to [-1,1] then scaled (negative: ×32768, non-negative:
×32767) before truncation to integer". -/
def encodeSampleSpec (s : ℚ) : ℤ :=
  let sample := clampSample s
  jsTrunc (if sample < 0 then sample * 32768 else sample * 32767)

/-- The WAV container `audioBufferToWav` writes: header fields in write
order and the interleaved 16-bit samples. -/
structure WavFile where
  audioFormat : ℕ
  numChannels : ℕ
  sampleRate : ℕ
  byteRate : ℕ
  blockAlign : ℕ
  bitsPerSample : ℕ
  riffChunkSize : ℕ
  dataChunkSize : ℕ
  data : List ℤ
deriving DecidableEq

/-- `audioBufferToWav(buffer)`: RIFF/WAVE header (PCM format 1, 16-bit,
byte rate `sampleRate * 2 * numOfChan`, block align `numOfChan * 2`, RIFF
size `length - 8`, data size `length - pos - 4` with `pos = 40`, i.e.
`length - 44`) and the interleaved per-frame samples, each channel value
clamped and scaled by `encodeSample`. -/
def audioBufferToWav (numOfChan sampleRate bufLen : ℕ)
    (channels : List (List ℚ)) : WavFile :=
  let totalLen := bufLen * numOfChan * 2 + 44
  { audioFormat := 1
    numChannels := numOfChan
    sampleRate := sampleRate
    byteRate := sampleRate * 2 * numOfChan
    blockAlign := numOfChan * 2
    bitsPerSample := 16
    riffChunkSize := totalLen - 8
    dataChunkSize := totalLen - 44
    data := (List.range bufLen).flatMap fun pos =>
      (List.range numOfChan).map fun i =>
        encodeSample ((channels.getD i []).getD pos 0) }

/-- The app's initial control state (`Home`): pitch 50, roomSize 30,
beautify on, all 23 EQ bands at 50, full trim window. -/
def ctrlDefault : AudioProcessorControls :=
  { pitch := 50, booster := false, roomSize := 30, fullRoom := false,
    bass := 50, treble := 50, beautify := true, mastered := false,
    eqBands := List.replicate 23 (some 50), cutStart := 0, cutEnd := 100 }

/-- The initial control state with `mastered` on and `beautify` off. -/
def ctrlMastered : AudioProcessorControls :=
  { ctrlDefault with mastered := true, beautify := false }

/-- A control state with a 10 % – 90 % trim window. -/
def ctrlTrim : AudioProcessorControls :=
  { ctrlDefault with cutStart := 10, cutEnd := 90 }

/-- A control state with an inverted (degenerate) trim window. -/
def ctrlInverted : AudioProcessorControls :=
  { ctrlDefault with cutStart := 80, cutEnd := 20 }

/-- A control state whose `eqBands` array has a single entry. -/
def ctrlShortBands : AudioProcessorControls :=
  { ctrlDefault with eqBands := [some 80] }

/-- The transport at session init. -/
def initTransport : TransportState :=
  { sourceActive := false, pauseTime := 0, isPlaying := false, currentTime := 0 }

/-- A session with a 10-second decoded source loaded. -/
def sessLoaded : Session :=
  { buffer := some { duration := 10 }, params := initRealtimeParams,
    transport := initTransport }

/-- A session before any upload. -/
def sessEmpty : Session :=
  { buffer := none, params := initRealtimeParams, transport := initTransport }

/-- `sessLoaded` paused at 5 seconds. -/
def sessPaused : Session :=
  { sessLoaded with transport := { initTransport with pauseTime := 5 } }

/-- Random draw stream of a first render (every draw 0). -/
def randA : ℕ → ℚ := fun _ => 0

/-- Random draw stream of a second render (every draw 1). -/
def randB : ℕ → ℚ := fun _ => 1

/-- A stream agreeing with `randA` on every draw a render consumes but
differing beyond them. -/
def randC : ℕ → ℚ := fun n => if n < 200000 then 0 else 5

/-! Helper lemmas about the per-band EQ update. -/

theorem updateEqNodes_freq (bands : List (Option ℚ)) (nodes : List EqNode) :
    (updateEqNodes bands nodes).map EqNode.freq = nodes.map EqNode.freq := by
  induction nodes generalizing bands with
  | nil => cases bands <;> simp [updateEqNodes]
  | cons n ns ih =>
    cases bands with
    | nil => simp [updateEqNodes, ih]
    | cons b bs => cases b <;> simp [updateEqNodes, ih]

theorem updateEqNodes_getD_some (bands : List (Option ℚ)) (nodes : List EqNode)
    (i : ℕ) (v : ℚ) (hb : bands.getD i none = some v) (hi : i < nodes.length) :
    (updateEqNodes bands nodes).getD i default =
      { nodes.getD i default with gain := (v - 50) / 2 } := by
  induction nodes generalizing bands i with
  | nil => simp at hi
  | cons n ns ih =>
    cases bands with
    | nil => simp [List.getD] at hb
    | cons b bs =>
      cases i with
      | zero =>
        simp only [List.getD_cons_zero] at hb
        subst hb
        simp [updateEqNodes, List.getD_cons_zero]
      | succ j =>
        simp only [List.getD_cons_succ] at hb
        have hj : j < ns.length := by simp at hi; omega
        cases b <;> simp only [updateEqNodes, List.getD_cons_succ] <;>
          exact ih bs j hb hj

theorem updateEqNodes_getD_none (bands : List (Option ℚ)) (nodes : List EqNode)
    (i : ℕ) (hb : bands.getD i none = none) :
    (updateEqNodes bands nodes).getD i default = nodes.getD i default := by
  induction nodes generalizing bands i with
  | nil => cases bands <;> simp [updateEqNodes]
  | cons n ns ih =>
    cases bands with
    | nil =>
      cases i with
      | zero => simp [updateEqNodes]
      | succ j =>
        simp only [updateEqNodes, List.getD_cons_succ]
        exact ih [] j (by simp [List.getD])
    | cons b bs =>
      cases i with
      | zero =>
        simp only [List.getD_cons_zero] at hb
        subst hb
        simp [updateEqNodes]
      | succ j =>
        simp only [List.getD_cons_succ] at hb
        cases b <;> simp only [updateEqNodes, List.getD_cons_succ] <;>
          exact ih bs j hb

/-- C2 counterexample: the claim demands a strictly lower (more negative)
threshold for `mastered`, but the mapper writes threshold -20 dB for
`mastered` and -24 dB for `beautify`-only, and -20 is not lower than
-24. -/
theorem mastered_threshold_not_lower :
    ¬ ((updateCompressor false true defaultCompressor).threshold
        < (updateCompressor true false defaultCompressor).threshold) ∧
    (updateCompressor false true defaultCompressor).threshold = -20 ∧
    (updateCompressor true false defaultCompressor).threshold = -24 := by
  refine ⟨?_, rfl, rfl⟩
  show ¬ ((-20 : ℚ) < -24)
  norm_num

/-- C2 (amended): `mastered=true` yields ratio 20 and threshold -20 dB,
`beautify=true, mastered=false` yields ratio 12 and threshold -24 dB; the
mastered ratio is strictly higher and the mastered threshold is strictly
higher (less negative), not lower. -/
theorem mastered_compression_values (b : Bool) (p q : CompressorParams) :
    (updateCompressor b true p).ratio = 20 ∧
    (updateCompressor b true p).threshold = -20 ∧
    (updateCompressor true false q).ratio = 12 ∧
    (updateCompressor true false q).threshold = -24 ∧
    (updateCompressor true false q).ratio < (updateCompressor b true p).ratio ∧
    (updateCompressor true false q).threshold
      < (updateCompressor b true p).threshold := by
  cases b <;>
    exact ⟨rfl, rfl, rfl, rfl,
      by show (12 : ℚ) < 20; norm_num,
      by show (-24 : ℚ) < -20; norm_num⟩

/-- C6: `stop()` is idempotent: a second call yields the same final state
(not playing, no source node, `currentTime = 0`, resume position 0), and
the model is a total function, so the second call raises nothing. -/
theorem stop_idempotent (t : TransportState) :
    stop (stop t) = stop t ∧ (stop t).isPlaying = false ∧
    (stop t).currentTime = 0 ∧ (stop t).pauseTime = 0 ∧
    (stop t).sourceActive = false :=
  ⟨rfl, rfl, rfl, rfl, rfl⟩

/-- C7: with no decoded source loaded, `play` returns the session
unchanged and `exportAudio` returns `none`; both are total (no raise). -/
theorem play_export_noop_without_source (s : Session)
    (c : AudioProcessorControls) (rand : ℕ → ℚ) (h : s.buffer = none) :
    play s c = s ∧ exportAudio s c rand = none := by
  constructor
  · unfold play; rw [h]
  · unfold exportAudio; rw [h]

/-- C7 witness: the no-source no-op at the empty session. -/
theorem play_export_noop_without_source_witness :
    play sessEmpty ctrlDefault = sessEmpty ∧
    exportAudio sessEmpty ctrlDefault randA = none :=
  play_export_noop_without_source sessEmpty ctrlDefault randA rfl

/-- C4 counterexample: at sample -1/4 (negative, above -0.5) the encoder
multiplies by 32767 and truncates to -8191, while the claim's rule
(negative ⇒ ×32768) gives -8192: the parsed condition is
`(0.5 + sample) < 0`, not `sample < 0`. -/
theorem encodeSample_spec_mismatch :
    encodeSample (-1/4) ≠ encodeSampleSpec (-1/4) ∧
    encodeSample (-1/4) = -8191 ∧ encodeSampleSpec (-1/4) = -8192 := by
  have h1 : encodeSample (-1/4) = -8191 := by
    simp only [encodeSample, clampSample, jsTrunc]
    have hc : max (-1 : ℚ) (min 1 (-1/4)) = -1/4 := by norm_num
    rw [hc, if_neg (by norm_num : ¬ ((0.5 : ℚ) + (-1/4) < 0)),
      if_pos (by norm_num : ((-1/4 : ℚ) * 32767) < 0),
      show ((-1/4 : ℚ) * 32767) = -(8191.75 : ℚ) by norm_num, Int.ceil_neg]
    norm_num
  have h2 : encodeSampleSpec (-1/4) = -8192 := by
    simp only [encodeSampleSpec, clampSample, jsTrunc]
    have hc : max (-1 : ℚ) (min 1 (-1/4)) = -1/4 := by norm_num
    rw [hc, if_pos (by norm_num : ((-1/4 : ℚ)) < 0),
      if_pos (by norm_num : ((-1/4 : ℚ) * 32768) < 0),
      show ((-1/4 : ℚ) * 32768) = -(8192 : ℚ) by norm_num, Int.ceil_neg]
    norm_num
  exact ⟨by rw [h1, h2]; decide, h1, h2⟩

/-- C4 (amended): the WAV container is 16-bit PCM with block-align
`channels * 2` and byte-rate `sampleRate * channels * 2`, and each sample
is clamped to [-1,1] and scaled by 32768 exactly when the clamped value is
below -0.5 (else by 32767) before truncation toward zero. -/
theorem audioBufferToWav_format (numOfChan sampleRate bufLen : ℕ)
    (channels : List (List ℚ)) (s : ℚ) :
    (audioBufferToWav numOfChan sampleRate bufLen channels).blockAlign
      = numOfChan * 2 ∧
    (audioBufferToWav numOfChan sampleRate bufLen channels).byteRate
      = sampleRate * numOfChan * 2 ∧
    (audioBufferToWav numOfChan sampleRate bufLen channels).bitsPerSample = 16 ∧
    (audioBufferToWav numOfChan sampleRate bufLen channels).audioFormat = 1 ∧
    encodeSample s = jsTrunc (if clampSample s < -(1/2 : ℚ)
      then clampSample s * 32768 else clampSample s * 32767) := by
  refine ⟨rfl,
    by show sampleRate * 2 * numOfChan = sampleRate * numOfChan * 2; ring,
    rfl, rfl, ?_⟩
  simp only [encodeSample]
  congr 1
  apply if_congr _ rfl rfl
  constructor <;> intro <;> linarith

/-- C9: `updateParams` maps detune to `(pitch - 50) * 24` cents (0 at
pitch 50), the shelves to `(value - 50) / 2` dB, and every defined band
entry `i` to gain `(eqBands[i] - 50) / 2` dB on the filter centered at
`FREQS[i]`, preserving the band order. -/
theorem updateParams_mappings (c : AudioProcessorControls) (p : RealtimeParams)
    (d : ℚ) (hd : p.detune = some d)
    (hfreq : p.eqNodes.map EqNode.freq = FREQS) :
    (updateParams c p).detune = some ((c.pitch - 50) * 24) ∧
    (c.pitch = 50 → (updateParams c p).detune = some 0) ∧
    (updateParams c p).bassGain = (c.bass - 50) / 2 ∧
    (updateParams c p).trebleGain = (c.treble - 50) / 2 ∧
    (∀ i, i < 23 → ∀ v, c.eqBands.getD i none = some v →
      ((updateParams c p).eqNodes.getD i default).gain = (v - 50) / 2 ∧
      ((updateParams c p).eqNodes.getD i default).freq = FREQS.getD i 0) ∧
    (updateParams c p).eqNodes.map EqNode.freq = FREQS := by
  have hlen : p.eqNodes.length = 23 := by
    have h := congrArg List.length hfreq
    simpa [FREQS] using h
  refine ⟨by simp [updateParams, hd], ?_, rfl, rfl, ?_, ?_⟩
  · intro hp
    simp only [updateParams, hd, hp]
    norm_num
  · intro i hi v hv
    have hi' : i < p.eqNodes.length := by omega
    have hup : (updateParams c p).eqNodes.getD i default
        = { p.eqNodes.getD i default with gain := (v - 50) / 2 } :=
      updateEqNodes_getD_some c.eqBands p.eqNodes i v hv hi'
    refine ⟨by rw [hup], ?_⟩
    rw [hup]
    show (p.eqNodes.getD i default).freq = FREQS.getD i 0
    rw [← hfreq, List.getD_eq_getElem _ _ hi',
      List.getD_eq_getElem _ _ (by simpa using hi'), List.getElem_map]
  · show (updateEqNodes c.eqBands p.eqNodes).map EqNode.freq = FREQS
    rw [updateEqNodes_freq, hfreq]

/-- C9 witness: the mapper at the app's default controls on the
initialized nodes with an attached source. -/
theorem updateParams_mappings_witness :
    (updateParams ctrlDefault { initRealtimeParams with detune := some 0 }).detune
      = some ((ctrlDefault.pitch - 50) * 24) ∧
    (updateParams ctrlDefault { initRealtimeParams with detune := some 0 }).bassGain
      = (ctrlDefault.bass - 50) / 2 :=
  let h := updateParams_mappings ctrlDefault
    { initRealtimeParams with detune := some 0 } 0 rfl rfl
  ⟨h.1, h.2.2.1⟩

/-- C10: an `eqBands` sequence shorter than 23 (or with undefined entries)
raises nothing — the model is total — every node whose band entry is
undefined is left entirely unchanged, and every defined entry `i` still
ramps node `i` to `(eqBands[i] - 50) / 2`. -/
theorem updateParams_missing_eqBands (c : AudioProcessorControls)
    (p : RealtimeParams) (i : ℕ) :
    (c.eqBands.getD i none = none →
      (updateParams c p).eqNodes.getD i default = p.eqNodes.getD i default) ∧
    (∀ v, c.eqBands.getD i none = some v → i < p.eqNodes.length →
      ((updateParams c p).eqNodes.getD i default).gain = (v - 50) / 2) := by
  constructor
  · intro hb
    exact updateEqNodes_getD_none c.eqBands p.eqNodes i hb
  · intro v hv hi
    rw [show (updateParams c p).eqNodes.getD i default
        = { p.eqNodes.getD i default with gain := (v - 50) / 2 }
      from updateEqNodes_getD_some c.eqBands p.eqNodes i v hv hi]

/-- C10 witness: with the single-entry `eqBands` list, band 0 is ramped to
`(80 - 50) / 2` and band 5 keeps its node state unchanged. -/
theorem updateParams_missing_eqBands_witness :
    (updateParams ctrlShortBands initRealtimeParams).eqNodes.getD 5 default
      = initRealtimeParams.eqNodes.getD 5 default ∧
    ((updateParams ctrlShortBands initRealtimeParams).eqNodes.getD 0 default).gain
      = (80 - 50) / 2 :=
  ⟨(updateParams_missing_eqBands ctrlShortBands initRealtimeParams 5).1 rfl,
   (updateParams_missing_eqBands ctrlShortBands initRealtimeParams 0).2 80 rfl
     (by decide)⟩

/-- C3: with `cutStart < cutEnd` on a positive-duration source, the
`startOffset` of `play()` always lies in `[cutStartTime, cutEndTime)`, and
a paused position below `cutStartTime` or at/past `cutEndTime` resumes
exactly at `cutStartTime`. -/
theorem play_startOffset_in_trim_window (c : AudioProcessorControls)
    (total pauseTime : ℚ) (hcut : c.cutStart < c.cutEnd) (htot : 0 < total) :
    cutStartTimeOf c total
      ≤ computeStartOffset pauseTime (cutStartTimeOf c total) (cutEndTimeOf c total) ∧
    computeStartOffset pauseTime (cutStartTimeOf c total) (cutEndTimeOf c total)
      < cutEndTimeOf c total ∧
    (pauseTime < cutStartTimeOf c total →
      computeStartOffset pauseTime (cutStartTimeOf c total) (cutEndTimeOf c total)
        = cutStartTimeOf c total) ∧
    (cutEndTimeOf c total ≤ pauseTime →
      computeStartOffset pauseTime (cutStartTimeOf c total) (cutEndTimeOf c total)
        = cutStartTimeOf c total) := by
  have hlt : cutStartTimeOf c total < cutEndTimeOf c total := by
    unfold cutStartTimeOf cutEndTimeOf
    have h1 : c.cutStart / 100 < c.cutEnd / 100 := by linarith
    exact mul_lt_mul_of_pos_right h1 htot
  unfold computeStartOffset
  by_cases hp : pauseTime < cutStartTimeOf c total
  · rw [if_pos hp, if_neg (not_le.mpr hlt)]
    exact ⟨le_refl _, hlt, fun _ => rfl, fun _ => rfl⟩
  · rw [if_neg hp]
    push_neg at hp
    by_cases hce : cutEndTimeOf c total ≤ pauseTime
    · rw [if_pos hce]
      exact ⟨le_refl _, hlt, fun h => absurd h (not_lt.mpr hp), fun _ => rfl⟩
    · rw [if_neg hce]
      exact ⟨hp, not_le.mp hce, fun h => absurd h (not_lt.mpr hp),
        fun h => absurd h hce⟩

/-- C3 witness: a 10 % – 90 % trim window on a 10-second source with a
reset paused position. -/
theorem play_startOffset_in_trim_window_witness :
    cutStartTimeOf ctrlTrim 10
      ≤ computeStartOffset 0 (cutStartTimeOf ctrlTrim 10) (cutEndTimeOf ctrlTrim 10) ∧
    computeStartOffset 0 (cutStartTimeOf ctrlTrim 10) (cutEndTimeOf ctrlTrim 10)
      < cutEndTimeOf ctrlTrim 10 :=
  let h := play_startOffset_in_trim_window ctrlTrim 10 0 (by decide) (by decide)
  ⟨h.1, h.2.1⟩

/-- C8: with `cutStart >= cutEnd` the model never raises (total function),
the playback length passed to the source reader is
`max 0 (cutEndTime - startOffset) = 0`, the start offset collapses to
`cutStartTime`, and the first tick transitions straight to Stopped with
resume position `cutStartTime`. -/
theorem play_degenerate_trim_window (c : AudioProcessorControls)
    (total pauseTime : ℚ) (hcut : c.cutEnd ≤ c.cutStart) (htot : 0 ≤ total) :
    playLength c total pauseTime = 0 ∧
    computeStartOffset pauseTime (cutStartTimeOf c total) (cutEndTimeOf c total)
      = cutStartTimeOf c total ∧
    (∀ s : Session, s.buffer = some { duration := total } →
      s.transport.pauseTime = pauseTime →
      (play s c).transport.isPlaying = false ∧
      (play s c).transport.sourceActive = false ∧
      (play s c).transport.currentTime = 0 ∧
      (play s c).transport.pauseTime = cutStartTimeOf c total) := by
  have hle : cutEndTimeOf c total ≤ cutStartTimeOf c total := by
    unfold cutStartTimeOf cutEndTimeOf
    have h1 : c.cutEnd / 100 ≤ c.cutStart / 100 := by linarith
    exact mul_le_mul_of_nonneg_right h1 htot
  have hso : computeStartOffset pauseTime (cutStartTimeOf c total)
      (cutEndTimeOf c total) = cutStartTimeOf c total := by
    unfold computeStartOffset
    by_cases hp : pauseTime < cutStartTimeOf c total
    · rw [if_pos hp, if_pos hle]
    · rw [if_neg hp]
      push_neg at hp
      rw [if_pos (le_trans hle hp)]
  have hpl : playLength c total pauseTime = 0 := by
    unfold playLength
    rw [hso]
    exact max_eq_left (by linarith)
  refine ⟨hpl, hso, ?_⟩
  intro s hb hp
  refine ⟨?_, ?_, ?_, ?_⟩ <;>
    · simp only [play, hb, hp, hso, tick, stop]
      rw [if_pos hle]

/-- C8 witness: an inverted 80 % – 20 % window on a 10-second source
paused at 5 seconds. -/
theorem play_degenerate_trim_window_witness :
    playLength ctrlInverted 10 5 = 0 ∧
    (play sessPaused ctrlInverted).transport.isPlaying = false ∧
    (play sessPaused ctrlInverted).transport.pauseTime
      = cutStartTimeOf ctrlInverted 10 :=
  let h := play_degenerate_trim_window ctrlInverted 10 5 (by decide) (by decide)
  let h3 := h.2.2 sessPaused rfl rfl
  ⟨h.1, h3.1, h3.2.2.2⟩

/-! Helper lemmas for the reverb impulse. -/

theorem getD_zero_map_range {α : Type} (g : ℕ → α) (d : α) (n : ℕ)
    (h : 0 < n) : ((List.range n).map g).getD 0 d = g 0 := by
  cases n with
  | zero => omega
  | succ m => rw [List.range_succ_eq_map]; rfl

theorem createReverbBuffer_congr (sr dur : ℕ) (r1 r2 : ℕ → ℚ)
    (h : ∀ n, n < 2 * (sr * dur) → r1 n = r2 n) :
    createReverbBuffer sr dur r1 = createReverbBuffer sr dur r2 := by
  simp only [createReverbBuffer]
  refine List.map_congr_left fun ch hch => ?_
  refine List.map_congr_left fun i hi => ?_
  have hch2 : ch < 2 := List.mem_range.mp hch
  have hi2 : i < sr * dur := List.mem_range.mp hi
  have hlt : ch * (sr * dur) + i < 2 * (sr * dur) := by
    have h1 : ch * (sr * dur) ≤ 1 * (sr * dur) :=
      Nat.mul_le_mul_right _ (by omega)
    omega
  rw [h _ hlt]

theorem createReverbBuffer_first (r : ℕ → ℚ) :
    ((createReverbBuffer 44100 2 r).getD 0 []).getD 0 0 = r 0 * 2 - 1 := by
  simp only [createReverbBuffer]
  rw [show List.range 2 = [0, 1] from rfl]
  simp only [List.map_cons, List.map_nil, List.getD_cons_zero]
  rw [getD_zero_map_range _ _ _ (by norm_num)]
  norm_num

/-- C5 counterexample: two renders of the same loaded session and controls
that consume different `Math.random` draw sequences produce different
offline graphs — the reverb impulse content differs — so repeated exports
are not byte-identical. -/
theorem exportAudio_reruns_differ :
    exportAudio sessLoaded ctrlDefault randA
      ≠ exportAudio sessLoaded ctrlDefault randB := by
  intro h
  have hproj := congrArg
    (Option.map fun g : OfflineRender => (g.reverbImpulse.getD 0 []).getD 0 0) h
  have hA : (exportAudio sessLoaded ctrlDefault randA).map
      (fun g : OfflineRender => (g.reverbImpulse.getD 0 []).getD 0 0)
      = some (((createReverbBuffer 44100 2 randA).getD 0 []).getD 0 0) := rfl
  have hB : (exportAudio sessLoaded ctrlDefault randB).map
      (fun g : OfflineRender => (g.reverbImpulse.getD 0 []).getD 0 0)
      = some (((createReverbBuffer 44100 2 randB).getD 0 []).getD 0 0) := rfl
  rw [hA, hB, createReverbBuffer_first, createReverbBuffer_first] at hproj
  simp only [randA, randB, Option.some.injEq] at hproj
  norm_num at hproj

/-- C5 (amended): the offline render is a deterministic function of
(source, controls) and the random draws consumed by the single
per-render reverb impulse: renders whose draws coincide on the consumed
range are identical, but fresh `Math.random` draws across calls make
repeated exports differ in general. -/
theorem exportAudio_deterministic_in_draws (s : Session)
    (c : AudioProcessorControls) (r1 r2 : ℕ → ℚ)
    (h : ∀ n, n < 2 * (44100 * 2) → r1 n = r2 n) :
    exportAudio s c r1 = exportAudio s c r2 := by
  cases hb : s.buffer with
  | none => unfold exportAudio; rw [hb]
  | some buf =>
    unfold exportAudio
    rw [hb, createReverbBuffer_congr 44100 2 r1 r2 h]

/-- C5 witness: streams that agree on every consumed draw but differ
beyond them render identically. -/
theorem exportAudio_deterministic_in_draws_witness :
    exportAudio sessLoaded ctrlDefault randA
      = exportAudio sessLoaded ctrlDefault randC :=
  exportAudio_deterministic_in_draws sessLoaded ctrlDefault randA randC
    (fun n hn => by
      simp only [randA, randC]
      rw [if_pos (by omega : n < 200000)])

/-- C1 (code bug): at `mastered=true, beautify=false` the realtime `play`
graph compresses with ratio 20 / threshold -20 dB and contains 23 peaking
EQ stages, while `exportAudio` builds a compressor with ratio 1 /
threshold 0 (it checks only `beautify`, so no compression) and no EQ band
stages at all — the offline topology and mapping are not identical to the
realtime path. -/
theorem exportAudio_violates_parity :
    (exportAudio sessLoaded ctrlMastered randA).map offlineCharsOf
      ≠ some (realtimeChars ctrlMastered) ∧
    (realtimeChars ctrlMastered).compressor.ratio = 20 ∧
    (realtimeChars ctrlMastered).compressor.threshold = -20 ∧
    (exportAudio sessLoaded ctrlMastered randA).map
      (fun g : OfflineRender => g.compressor.ratio) = some 1 ∧
    (exportAudio sessLoaded ctrlMastered randA).map
      (fun g : OfflineRender => g.compressor.threshold) = some 0 ∧
    (realtimeChars ctrlMastered).eqNodes.length = 23 ∧
    (exportAudio sessLoaded ctrlMastered randA).map
      (fun g : OfflineRender => g.eqNodes) = some [] := by
  refine ⟨?_, rfl, rfl, rfl, rfl, rfl, rfl⟩
  intro h
  have h2 := congrArg (Option.map RenderChars.eqNodes) h
  have hL : Option.map RenderChars.eqNodes
      ((exportAudio sessLoaded ctrlMastered randA).map offlineCharsOf)
      = some [] := rfl
  have hR : Option.map RenderChars.eqNodes (some (realtimeChars ctrlMastered))
      = some (realtimeChars ctrlMastered).eqNodes := rfl
  rw [hL, hR] at h2
  have h3 : ([] : List EqNode) = (realtimeChars ctrlMastered).eqNodes :=
    Option.some.inj h2
  have h4 := congrArg List.length h3
  rw [show (realtimeChars ctrlMastered).eqNodes.length = 23 from rfl] at h4
  simp at h4

end ES
